import Mathlib

/-!
Verification of `metamuses-api/scripts/download-models.py`.

The script is embedded shallowly:

* `MODELS` and `PRESETS` transcribe the static tables (source lines 27-123).
* The filesystem is an association list from path strings to file contents.
* External effects (the interactive prompt, `Path.unlink`, and the
  `hf_hub_download` fetch) are recorded in an event trace, so that theorems
  can speak about what was invoked and in which order.  Entry into
  `download_model` is itself recorded as a `download` event, which lets us
  observe how often and in which order the downloader is invoked.
* The external hub client is an oracle `FetchCall → Except String String`:
  on success it yields the bytes that end up at the target path (the real
  `hf_hub_download` with `local_dir` writes the file at
  `models_dir / filename`, replacing previous content), on error it models
  the exception caught at source lines 231-233.
* The interactive `input()` of line 209 is modelled by a `promptResponse`
  string supplied by the environment.
-/

/-- One value of the `MODELS` dict (source lines 27-114).  The `size_gb`
float is informational only (never compared, only printed); it is stored
exactly as tenths of a GB (`1.2` becomes `12`) so that equality on
`ModelInfo` stays kernel-decidable. -/
structure ModelInfo where
  repo_id : String
  filename : String
  description : String
  tier : String
  size_gb_tenths : Nat
  deriving DecidableEq

/-- The static model catalog `MODELS`, in source order (lines 27-114). -/
def MODELS : List (String × ModelInfo) :=
  [ ("qwen2.5-1.5b-q5",
      { repo_id := "Qwen/Qwen2.5-1.5B-Instruct-GGUF",
        filename := "qwen2.5-1.5b-instruct-q5_k_m.gguf",
        description := "Qwen2.5 1.5B Q5_K_M - Fast tier",
        tier := "fast", size_gb_tenths := 12 }),
    ("phi3-mini-q5",
      { repo_id := "microsoft/Phi-3-mini-4k-instruct-gguf",
        filename := "Phi-3-mini-4k-instruct-q5_k_m.gguf",
        description := "Phi-3 Mini Q5_K_M - Fast tier",
        tier := "fast", size_gb_tenths := 23 }),
    ("qwen2.5-7b-q5",
      { repo_id := "Qwen/Qwen2.5-7B-Instruct-GGUF",
        filename := "qwen2.5-7b-instruct-q5_k_m.gguf",
        description := "Qwen2.5 7B Q5_K_M - Medium tier",
        tier := "medium", size_gb_tenths := 58 }),
    ("llama3.1-8b-q5",
      { repo_id := "lmstudio-community/Meta-Llama-3.1-8B-Instruct-GGUF",
        filename := "Meta-Llama-3.1-8B-Instruct-Q5_K_M.gguf",
        description := "LLaMA 3.1 8B Q5_K_M - Medium tier",
        tier := "medium", size_gb_tenths := 61 }),
    ("qwen3-4b-q4",
      { repo_id := "unsloth/Qwen3-4B-Instruct-2507-GGUF",
        filename := "Qwen3-4B-Instruct-2507-Q4_K_M.gguf",
        description := "Qwen3 4B Q4_K_M - Balanced (fastest)",
        tier := "medium", size_gb_tenths := 25 }),
    ("qwen3-4b-q5",
      { repo_id := "unsloth/Qwen3-4B-Instruct-2507-GGUF",
        filename := "Qwen3-4B-Instruct-2507-Q5_K_M.gguf",
        description := "Qwen3 4B Q5_K_M - Good quality",
        tier := "medium", size_gb_tenths := 30 }),
    ("qwen3-4b-q6",
      { repo_id := "unsloth/Qwen3-4B-Instruct-2507-GGUF",
        filename := "Qwen3-4B-Instruct-2507-Q6_K.gguf",
        description := "Qwen3 4B Q6_K - Better quality",
        tier := "medium", size_gb_tenths := 35 }),
    ("qwen3-4b-q8",
      { repo_id := "unsloth/Qwen3-4B-Instruct-2507-GGUF",
        filename := "Qwen3-4B-Instruct-2507-Q8_0.gguf",
        description := "Qwen3 4B Q8_0 - High quality",
        tier := "medium", size_gb_tenths := 43 }),
    ("qwen3-4b-f16",
      { repo_id := "unsloth/Qwen3-4B-Instruct-2507-GGUF",
        filename := "Qwen3-4B-Instruct-2507-F16.gguf",
        description := "Qwen3 4B F16 - Full precision",
        tier := "medium", size_gb_tenths := 80 }),
    ("qwen2.5-72b-q4",
      { repo_id := "Qwen/Qwen2.5-72B-Instruct-GGUF",
        filename := "qwen2.5-72b-instruct-q4_k_m.gguf",
        description := "Qwen2.5 72B Q4_K_M - Heavy tier",
        tier := "heavy", size_gb_tenths := 420 }),
    ("deepseek-coder-v2",
      { repo_id := "deepseek-ai/DeepSeek-Coder-V2-Lite-Instruct",
        filename := "deepseek-coder-v2-lite-instruct-q5_k_m.gguf",
        description := "DeepSeek Coder V2 - Code tasks",
        tier := "specialized", size_gb_tenths := 105 }) ]

/-- The static preset table `PRESETS`, in source order (lines 117-123). -/
def PRESETS : List (String × List String) :=
  [ ("minimal", ["qwen3-4b-q5"]),
    ("recommended", ["qwen2.5-1.5b-q5", "qwen3-4b-q5", "qwen2.5-7b-q5"]),
    ("production",
      ["qwen2.5-1.5b-q5", "qwen3-4b-q5", "qwen2.5-7b-q5", "deepseek-coder-v2"]),
    ("qwen3-all", ["qwen3-4b-q4", "qwen3-4b-q5", "qwen3-4b-q6", "qwen3-4b-q8"]),
    ("qwen3-best", ["qwen3-4b-q6", "qwen3-4b-q8"]) ]

/-- First-match association-list lookup; Python dict lookup on the static
tables (whose keys are pairwise distinct). -/
def assocLookup {α : Type} : List (String × α) → String → Option α
  | [], _ => none
  | (k, v) :: rest, key => if k = key then some v else assocLookup rest key

/-- `model_key in MODELS` / `MODELS[model_key]` (source lines 186, 191). -/
def lookupModel (key : String) : Option ModelInfo :=
  assocLookup MODELS key

/-- `preset_name in PRESETS` / `PRESETS[preset_name]` (source lines 243, 248). -/
def lookupPreset (name : String) : Option (List String) :=
  assocLookup PRESETS name

/-- The filesystem: paths mapped to file contents (bytes as a string). -/
def fsLookup (fs : List (String × String)) (p : String) : Option String :=
  assocLookup fs p

/-- `Path.unlink`: remove every entry at path `p`. -/
def fsErase : List (String × String) → String → List (String × String)
  | [], _ => []
  | (k, v) :: rest, p => if k = p then fsErase rest p else (k, v) :: fsErase rest p

/-- Writing a file: the path now maps to `c` and to nothing else. -/
def fsInsert (fs : List (String × String)) (p c : String) : List (String × String) :=
  (p, c) :: fsErase fs p

/-- Number of directory entries at path `p` (to state "no duplicate"). -/
def fsCountPath : List (String × String) → String → Nat
  | [], _ => 0
  | (k, _) :: rest, p => (if k = p then 1 else 0) + fsCountPath rest p

/-- `models_dir / filename` (source line 204). -/
def pathJoin (dir file : String) : String := dir ++ "/" ++ file

/-- The argument tuple of one `hf_hub_download` invocation (source lines
217-224); `resume` is the `resume_download=True` keyword. -/
structure FetchCall where
  repo_id : String
  filename : String
  local_dir : String
  token : Option String
  resume : Bool
  deriving DecidableEq

/-- Observable events: entry into `download_model`, the interactive
overwrite prompt (line 209), `output_path.unlink()` (line 213), and the
external fetch (lines 217-224). -/
inductive Event where
  | download (key : String)
  | prompt
  | unlink (path : String)
  | fetch (call : FetchCall)
  deriving DecidableEq

/-- The mutable world: the files on disk plus the event history. -/
structure DLState where
  fs : List (String × String)
  trace : List Event
  deriving DecidableEq

/-- Fetch invocations recorded in a trace, in order. -/
def fetchCalls (tr : List Event) : List FetchCall :=
  tr.filterMap fun e => match e with | .fetch c => some c | _ => none

/-- Paths passed to `unlink`, in order. -/
def unlinks (tr : List Event) : List String :=
  tr.filterMap fun e => match e with | .unlink p => some p | _ => none

/-- Keys `download_model` was invoked on, in order. -/
def downloadKeys (tr : List Event) : List String :=
  tr.filterMap fun e => match e with | .download k => some k | _ => none

/-- ASCII lowercasing of one character (`str.lower` on the inputs that
matter here; the script only ever compares against `"y"`). -/
def asciiLower (c : Char) : Char :=
  if 'A' ≤ c ∧ c ≤ 'Z' then Char.ofNat (c.toNat + 32) else c

/-- Python `str.strip` whitespace test (ASCII whitespace). -/
def isPySpace (c : Char) : Bool :=
  c = ' ' || c = '\t' || c = '\n' || c = '\r' || c = '\x0b' || c = '\x0c'

/-- Drop whitespace from both ends of a character list. -/
def stripChars (l : List Char) : List Char :=
  ((l.dropWhile isPySpace).reverse.dropWhile isPySpace).reverse

/-- `response.strip().lower()` of source line 209, implemented structurally
over the character list so that it evaluates inside the kernel. -/
def pyStripLower (s : String) : String :=
  String.mk ((stripChars s.data).map asciiLower)

/-- The `try: hf_hub_download(...)` block of source lines 216-233: record the
fetch; on success the fetched bytes land at `models_dir / filename` and the
function returns `True`; the `except` branch returns `False`. -/
def doFetch (fetch : FetchCall → Except String String) (info : ModelInfo)
    (models_dir : String) (token : Option String) (s : DLState) : Bool × DLState :=
  let call : FetchCall :=
    { repo_id := info.repo_id, filename := info.filename,
      local_dir := models_dir, token := token, resume := true }
  let s1 : DLState := { s with trace := s.trace ++ [Event.fetch call] }
  match fetch call with
  | Except.ok content =>
      (true, { s1 with fs := fsInsert s1.fs (pathJoin models_dir info.filename) content })
  | Except.error _ => (false, s1)

/-- `download_model` (source lines 178-233).  Unknown key: `False`
immediately (lines 186-189).  If the target exists and `force` is false,
prompt; any stripped-lowercased answer other than `"y"` skips and returns
`True` (lines 207-212); answer `"y"` unlinks the file first (line 213).
Then delegate to the fetch. -/
def download_model (fetch : FetchCall → Except String String)
    (promptResponse : String) (model_key : String) (models_dir : String)
    (token : Option String) (force : Bool) (s : DLState) : Bool × DLState :=
  let s0 : DLState := { s with trace := s.trace ++ [Event.download model_key] }
  match lookupModel model_key with
  | none => (false, s0)
  | some info =>
    let output_path := pathJoin models_dir info.filename
    if (fsLookup s0.fs output_path).isSome && !force then
      let s1 : DLState := { s0 with trace := s0.trace ++ [Event.prompt] }
      if pyStripLower promptResponse ≠ "y" then
        (true, s1)
      else
        doFetch fetch info models_dir token
          { s1 with fs := fsErase s1.fs output_path,
                    trace := s1.trace ++ [Event.unlink output_path] }
    else
      doFetch fetch info models_dir token s0

/-- Outcome of a batch of downloads: the two counters the source returns,
the individual boolean results in invocation order (observation), and the
final world state. -/
structure RunResult where
  succ : Nat
  fail : Nat
  results : List Bool
  state : DLState
  deriving DecidableEq

/-- The download loop shared by `download_preset` (source lines 258-263) and
`main` (lines 393-397): invoke `download_model` on each key in order,
counting successes and failures; no early abort. -/
def runDownloads (fetch : FetchCall → Except String String)
    (promptResponse : String) (models_dir : String) (token : Option String)
    (force : Bool) : List String → DLState → RunResult
  | [], s => ⟨0, 0, [], s⟩
  | key :: rest, s =>
    let p := download_model fetch promptResponse key models_dir token force s
    let r := runDownloads fetch promptResponse models_dir token force rest p.2
    if p.1 then ⟨r.succ + 1, r.fail, p.1 :: r.results, r.state⟩
    else ⟨r.succ, r.fail + 1, p.1 :: r.results, r.state⟩

/-- `download_preset` (source lines 235-265): unknown preset returns the
pair `(0, 0)` without touching anything (lines 243-246); otherwise runs the
loop over the preset's key list in its defined order. -/
def download_preset (fetch : FetchCall → Except String String)
    (promptResponse : String) (preset_name : String) (models_dir : String)
    (token : Option String) (force : Bool) (s : DLState) : RunResult :=
  match lookupPreset preset_name with
  | none => ⟨0, 0, [], s⟩
  | some models => runDownloads fetch promptResponse models_dir token force models s

/-- The parsed CLI arguments (source lines 296-341), with argparse defaults:
`models = []`, `list = presets = force = False`, `preset = token = browse =
None`, `dir = "./models"`. -/
structure Args where
  models : List String
  list : Bool
  presets : Bool
  preset : Option String
  dir : String
  token : Option String
  force : Bool
  browse : Option String
  deriving DecidableEq

/-- Python truthiness of an optional string (`if args.browse:` and
`if args.preset:` are false for `None` and for the empty string). -/
def optStrTruthy : Option String → Bool
  | none => false
  | some s => s ≠ ""

/-- Which primary action an invocation of `main` performed. -/
inductive MainAction where
  | missingDependency
  | listModels
  | listPresets
  | browse (repo_id : String)
  | presetDownload (name : String)
  | explicitDownload (keys : List String)
  | noModels
  deriving DecidableEq

/-- Outcome of `main`: the `sys.exit` code, the primary action taken, the
success/failure counters, the individual download results, and the final
world state. -/
structure MainResult where
  exit : Nat
  action : MainAction
  succ : Nat
  fail : Nat
  results : List Bool
  state : DLState
  deriving DecidableEq

/-- `main` (source lines 295-417).  Dependency check first (lines 347-352,
exit 1); then `--list` (355-357), `--presets` (360-362), `--browse`
(365-373), each returning from `main` so the process exits 0; then the token
fallback `args.token or os.environ.get("HF_TOKEN")` (line 376); then
`--preset` (386-390) or positional models (391-397), exiting
`0 if fail_count == 0 else 1` (line 417); else the "No models specified"
usage error with `sys.exit(1)` (lines 398-404).
`--browse` delegates to `list_repo_files_safe` (lines 169-176), which only
prints and swallows every exception, so it affects neither the state nor the
exit code and needs no oracle here. -/
def Script.main (hfAvailable : Bool) (envToken : Option String)
    (fetch : FetchCall → Except String String)
    (promptResponse : String) (args : Args) (s : DLState) : MainResult :=
  if !hfAvailable then
    ⟨1, MainAction.missingDependency, 0, 0, [], s⟩
  else if args.list then
    ⟨0, MainAction.listModels, 0, 0, [], s⟩
  else if args.presets then
    ⟨0, MainAction.listPresets, 0, 0, [], s⟩
  else if optStrTruthy args.browse then
    ⟨0, MainAction.browse (args.browse.getD ""), 0, 0, [], s⟩
  else
    let token := if optStrTruthy args.token then args.token else envToken
    if optStrTruthy args.preset then
      let r := download_preset fetch promptResponse (args.preset.getD "")
        args.dir token args.force s
      ⟨if r.fail = 0 then 0 else 1, MainAction.presetDownload (args.preset.getD ""),
        r.succ, r.fail, r.results, r.state⟩
    else if !args.models.isEmpty then
      let r := runDownloads fetch promptResponse args.dir token args.force args.models s
      ⟨if r.fail = 0 then 0 else 1, MainAction.explicitDownload args.models,
        r.succ, r.fail, r.results, r.state⟩
    else
      ⟨1, MainAction.noModels, 0, 0, [], s⟩

/-- Modelled from the spec (section 4.2): "Exactly one primary action
executes per invocation, chosen by priority: list-models, then list-presets,
then browse, then preset-download, then explicit-key-download, else 'no
models specified' error".  Written from the spec's words, to be compared
with `main`. -/
def selectPrimaryAction (args : Args) : MainAction :=
  if args.list then MainAction.listModels
  else if args.presets then MainAction.listPresets
  else if optStrTruthy args.browse then MainAction.browse (args.browse.getD "")
  else if optStrTruthy args.preset then MainAction.presetDownload (args.preset.getD "")
  else if !args.models.isEmpty then MainAction.explicitDownload args.models
  else MainAction.noModels

/-! Helper lemmas about traces and the filesystem model. -/

theorem downloadKeys_append (a b : List Event) :
    downloadKeys (a ++ b) = downloadKeys a ++ downloadKeys b := by
  simp [downloadKeys, List.filterMap_append]

theorem fetchCalls_append (a b : List Event) :
    fetchCalls (a ++ b) = fetchCalls a ++ fetchCalls b := by
  simp [fetchCalls, List.filterMap_append]

theorem unlinks_append (a b : List Event) :
    unlinks (a ++ b) = unlinks a ++ unlinks b := by
  simp [unlinks, List.filterMap_append]

theorem fsLookup_fsErase_ne (fs : List (String × String)) (p q : String)
    (h : q ≠ p) : fsLookup (fsErase fs p) q = fsLookup fs q := by
  induction fs with
  | nil => rfl
  | cons e rest ih =>
    obtain ⟨k, v⟩ := e
    by_cases hk : k = p
    · subst hk
      simpa [fsErase, fsLookup, assocLookup, if_neg (Ne.symm h)] using ih
    · by_cases hq : k = q
      · simp [fsErase, fsLookup, assocLookup, hk, hq, h]
      · simpa [fsErase, fsLookup, assocLookup, hk, hq] using ih

theorem fsCountPath_fsErase_self (fs : List (String × String)) (p : String) :
    fsCountPath (fsErase fs p) p = 0 := by
  induction fs with
  | nil => rfl
  | cons e rest ih =>
    by_cases hk : e.1 = p <;> simp [fsErase, fsCountPath, hk, ih]

theorem fsLookup_fsInsert_self (fs : List (String × String)) (p c : String) :
    fsLookup (fsInsert fs p c) p = some c := by
  simp [fsInsert, fsLookup, assocLookup]

theorem fsLookup_fsInsert_ne (fs : List (String × String)) (p c q : String)
    (h : q ≠ p) : fsLookup (fsInsert fs p c) q = fsLookup fs q := by
  have h2 := fsLookup_fsErase_ne fs p q h
  simp only [fsInsert, fsLookup, assocLookup, if_neg (Ne.symm h)] at h2 ⊢
  exact h2

theorem fsCountPath_fsInsert_self (fs : List (String × String)) (p c : String) :
    fsCountPath (fsInsert fs p c) p = 1 := by
  simp [fsInsert, fsCountPath, fsCountPath_fsErase_self]

theorem download_model_unknown (fetch : FetchCall → Except String String)
    (pr key dir : String) (tok : Option String) (force : Bool) (s : DLState)
    (hk : lookupModel key = none) :
    download_model fetch pr key dir tok force s
      = (false, { s with trace := s.trace ++ [Event.download key] }) := by
  simp [download_model, hk]

theorem download_model_force (fetch : FetchCall → Except String String)
    (pr key dir : String) (tok : Option String) (s : DLState) (info : ModelInfo)
    (hk : lookupModel key = some info) :
    download_model fetch pr key dir tok true s
      = doFetch fetch info dir tok
          { s with trace := s.trace ++ [Event.download key] } := by
  simp [download_model, hk]

theorem doFetch_ok (fetch : FetchCall → Except String String) (info : ModelInfo)
    (dir : String) (tok : Option String) (s : DLState) (content : String)
    (hfetch : fetch ⟨info.repo_id, info.filename, dir, tok, true⟩
        = Except.ok content) :
    doFetch fetch info dir tok s
      = (true,
         { fs := fsInsert s.fs (pathJoin dir info.filename) content,
           trace := s.trace
             ++ [Event.fetch ⟨info.repo_id, info.filename, dir, tok, true⟩] }) := by
  simp [doFetch, hfetch]

theorem doFetch_trace (fetch : FetchCall → Except String String) (info : ModelInfo)
    (dir : String) (tok : Option String) (s : DLState) :
    (doFetch fetch info dir tok s).2.trace
      = s.trace
          ++ [Event.fetch ⟨info.repo_id, info.filename, dir, tok, true⟩] := by
  cases h : fetch ⟨info.repo_id, info.filename, dir, tok, true⟩ <;>
    simp [doFetch, h]

theorem download_model_downloadKeys (fetch : FetchCall → Except String String)
    (pr key dir : String) (tok : Option String) (force : Bool) (s : DLState) :
    downloadKeys (download_model fetch pr key dir tok force s).2.trace
      = downloadKeys s.trace ++ [key] := by
  cases hk : lookupModel key with
  | none => simp [download_model, hk, downloadKeys_append, downloadKeys]
  | some info =>
    simp only [download_model, hk]
    split
    · split
      · simp [downloadKeys_append, downloadKeys]
      · simp [doFetch_trace, downloadKeys_append, downloadKeys]
    · simp [doFetch_trace, downloadKeys_append, downloadKeys]

theorem runDownloads_succ_add_fail (fetch : FetchCall → Except String String)
    (pr dir : String) (tok : Option String) (force : Bool) :
    ∀ (keys : List String) (s : DLState),
      (runDownloads fetch pr dir tok force keys s).succ
        + (runDownloads fetch pr dir tok force keys s).fail = keys.length := by
  intro keys
  induction keys with
  | nil => intro s; simp [runDownloads]
  | cons k rest ih =>
    intro s
    have h := ih (download_model fetch pr k dir tok force s).2
    simp only [runDownloads]
    split <;> simp only [List.length_cons] <;> omega

theorem runDownloads_fail_eq_zero_iff (fetch : FetchCall → Except String String)
    (pr dir : String) (tok : Option String) (force : Bool) :
    ∀ (keys : List String) (s : DLState),
      ((runDownloads fetch pr dir tok force keys s).fail = 0
        ↔ ∀ b ∈ (runDownloads fetch pr dir tok force keys s).results, b = true) := by
  intro keys
  induction keys with
  | nil => intro s; simp [runDownloads]
  | cons k rest ih =>
    intro s
    have h := ih (download_model fetch pr k dir tok force s).2
    simp only [runDownloads]
    split
    · rename_i hp
      simpa [hp] using h
    · rename_i hp
      simp [hp, Bool.not_eq_true] at *

theorem runDownloads_downloadKeys (fetch : FetchCall → Except String String)
    (pr dir : String) (tok : Option String) (force : Bool) :
    ∀ (keys : List String) (s : DLState),
      downloadKeys (runDownloads fetch pr dir tok force keys s).state.trace
        = downloadKeys s.trace ++ keys := by
  intro keys
  induction keys with
  | nil => intro s; simp [runDownloads]
  | cons k rest ih =>
    intro s
    have h := ih (download_model fetch pr k dir tok force s).2
    simp only [runDownloads]
    split <;> dsimp only <;>
      rw [h, download_model_downloadKeys] <;> simp

theorem download_model_skip (fetch : FetchCall → Except String String)
    (pr key dir : String) (tok : Option String) (s : DLState) (info : ModelInfo)
    (hk : lookupModel key = some info)
    (hex : (fsLookup s.fs (pathJoin dir info.filename)).isSome = true)
    (hresp : pyStripLower pr ≠ "y") :
    download_model fetch pr key dir tok false s
      = (true, { s with trace := s.trace ++ [Event.download key, Event.prompt] }) := by
  simp [download_model, hk, hex, hresp]

theorem runDownloads_skip (fetch : FetchCall → Except String String)
    (pr dir : String) (tok : Option String) :
    ∀ (keys : List String) (s : DLState),
      pyStripLower pr ≠ "y" →
      (∀ k ∈ keys, ∃ info, lookupModel k = some info ∧
          (fsLookup s.fs (pathJoin dir info.filename)).isSome = true) →
      (runDownloads fetch pr dir tok false keys s).succ = keys.length ∧
      (runDownloads fetch pr dir tok false keys s).fail = 0 ∧
      (runDownloads fetch pr dir tok false keys s).results
          = List.replicate keys.length true ∧
      (runDownloads fetch pr dir tok false keys s).state.fs = s.fs := by
  intro keys
  induction keys with
  | nil => intro s _ _; simp [runDownloads]
  | cons k rest ih =>
    intro s hresp hall
    obtain ⟨info, hk, hex⟩ := hall k (List.mem_cons_self k rest)
    have hdm := download_model_skip fetch pr k dir tok s info hk hex hresp
    have hr := ih { s with trace := s.trace ++ [Event.download k, Event.prompt] }
      hresp (fun k' hk' => hall k' (List.mem_cons_of_mem k hk'))
    simp only [runDownloads, hdm]
    simp [hr.1, hr.2.1, hr.2.2.1, hr.2.2.2, List.replicate_succ]

theorem download_preset_fail_eq_zero_iff (fetch : FetchCall → Except String String)
    (pr name dir : String) (tok : Option String) (force : Bool) (s : DLState) :
    ((download_preset fetch pr name dir tok force s).fail = 0
      ↔ ∀ b ∈ (download_preset fetch pr name dir tok force s).results, b = true) := by
  cases h : lookupPreset name with
  | none => simp [download_preset, h]
  | some models =>
    simpa [download_preset, h] using
      runDownloads_fail_eq_zero_iff fetch pr dir tok force models s

/-- Claim C1, counterexample to the claim as stated: with a pre-existing
target file for `"qwen3-4b-q5"` and `force = true`, `download_model` invokes
the external fetch but never removes the pre-existing file first — the trace
contains a fetch call and no unlink at all.  (In the source, the
`output_path.unlink()` of line 213 sits inside the `not force` branch of
line 207, so it is unreachable when `force` is true.) -/
theorem claim_C1_counterexample :
    (fsLookup [("m/Qwen3-4B-Instruct-2507-Q5_K_M.gguf", "old")]
        "m/Qwen3-4B-Instruct-2507-Q5_K_M.gguf").isSome = true ∧
    unlinks (download_model (fun _ => Except.ok "new") "" "qwen3-4b-q5" "m" none true
        ⟨[("m/Qwen3-4B-Instruct-2507-Q5_K_M.gguf", "old")], []⟩).2.trace = [] ∧
    fetchCalls (download_model (fun _ => Except.ok "new") "" "qwen3-4b-q5" "m" none true
        ⟨[("m/Qwen3-4B-Instruct-2507-Q5_K_M.gguf", "old")], []⟩).2.trace ≠ [] := by
  decide

/-- Claim C1, amended: for a catalog key whose target file already exists,
`download_model` with `force = true` does NOT remove the pre-existing file
before the fetch (it performs no unlink at all); it invokes the external
fetch directly, and after a successful fetch the target path holds exactly
the newly fetched content — one directory entry, no stale leftover, no
duplicate — while every other path is untouched. -/
theorem claim_C1 (fetch : FetchCall → Except String String)
    (pr key dir : String) (tok : Option String) (s : DLState)
    (info : ModelInfo) (content : String)
    (hk : lookupModel key = some info)
    (_hex : (fsLookup s.fs (pathJoin dir info.filename)).isSome = true)
    (hfetch : fetch ⟨info.repo_id, info.filename, dir, tok, true⟩
        = Except.ok content) :
    (download_model fetch pr key dir tok true s).1 = true ∧
    unlinks (download_model fetch pr key dir tok true s).2.trace
        = unlinks s.trace ∧
    fsLookup (download_model fetch pr key dir tok true s).2.fs
        (pathJoin dir info.filename) = some content ∧
    fsCountPath (download_model fetch pr key dir tok true s).2.fs
        (pathJoin dir info.filename) = 1 ∧
    (∀ q, q ≠ pathJoin dir info.filename →
      fsLookup (download_model fetch pr key dir tok true s).2.fs q
        = fsLookup s.fs q) := by
  have h1 := download_model_force fetch pr key dir tok s info hk
  have h2 := doFetch_ok fetch info dir tok
    { s with trace := s.trace ++ [Event.download key] } content hfetch
  rw [h2] at h1
  rw [h1]
  refine ⟨rfl, ?_, ?_, ?_, ?_⟩
  · simp [unlinks_append, unlinks]
  · exact fsLookup_fsInsert_self _ _ _
  · exact fsCountPath_fsInsert_self _ _ _
  · intro q hq
    exact fsLookup_fsInsert_ne _ _ _ _ hq

theorem claim_C1_witness :
    (download_model (fun _ => Except.ok "new") "n" "qwen3-4b-q5" "m" none true
        ⟨[("m/Qwen3-4B-Instruct-2507-Q5_K_M.gguf", "old")], []⟩).1 = true ∧
    unlinks (download_model (fun _ => Except.ok "new") "n" "qwen3-4b-q5" "m" none true
        ⟨[("m/Qwen3-4B-Instruct-2507-Q5_K_M.gguf", "old")], []⟩).2.trace = unlinks [] ∧
    fsLookup (download_model (fun _ => Except.ok "new") "n" "qwen3-4b-q5" "m" none true
        ⟨[("m/Qwen3-4B-Instruct-2507-Q5_K_M.gguf", "old")], []⟩).2.fs
        (pathJoin "m" "Qwen3-4B-Instruct-2507-Q5_K_M.gguf") = some "new" ∧
    fsCountPath (download_model (fun _ => Except.ok "new") "n" "qwen3-4b-q5" "m" none true
        ⟨[("m/Qwen3-4B-Instruct-2507-Q5_K_M.gguf", "old")], []⟩).2.fs
        (pathJoin "m" "Qwen3-4B-Instruct-2507-Q5_K_M.gguf") = 1 ∧
    (∀ q, q ≠ pathJoin "m" "Qwen3-4B-Instruct-2507-Q5_K_M.gguf" →
      fsLookup (download_model (fun _ => Except.ok "new") "n" "qwen3-4b-q5" "m" none true
        ⟨[("m/Qwen3-4B-Instruct-2507-Q5_K_M.gguf", "old")], []⟩).2.fs q
        = fsLookup [("m/Qwen3-4B-Instruct-2507-Q5_K_M.gguf", "old")] q) :=
  claim_C1 (fun _ => Except.ok "new") "n" "qwen3-4b-q5" "m" none
    ⟨[("m/Qwen3-4B-Instruct-2507-Q5_K_M.gguf", "old")], []⟩
    { repo_id := "unsloth/Qwen3-4B-Instruct-2507-GGUF",
      filename := "Qwen3-4B-Instruct-2507-Q5_K_M.gguf",
      description := "Qwen3 4B Q5_K_M - Good quality",
      tier := "medium", size_gb_tenths := 30 }
    "new" (by decide) (by decide) rfl

/-- Claim C3 (confirmed): for every preset name in the preset table,
`download_preset` invokes `download_model` once per key of the preset, in
the preset's defined order and without early abort, and the returned counts
satisfy `successCount + failureCount = length of the preset`. -/
theorem claim_C3 (fetch : FetchCall → Except String String)
    (pr dir : String) (tok : Option String) (force : Bool) (s : DLState)
    (name : String) (keys : List String)
    (h : lookupPreset name = some keys) :
    (download_preset fetch pr name dir tok force s).succ
        + (download_preset fetch pr name dir tok force s).fail = keys.length ∧
    downloadKeys (download_preset fetch pr name dir tok force s).state.trace
        = downloadKeys s.trace ++ keys := by
  simp only [download_preset, h]
  exact ⟨runDownloads_succ_add_fail fetch pr dir tok force keys s,
    runDownloads_downloadKeys fetch pr dir tok force keys s⟩

theorem claim_C3_witness :
    (download_preset (fun _ => Except.error "net") "" "qwen3-best" "m" none true
        ⟨[], []⟩).succ
      + (download_preset (fun _ => Except.error "net") "" "qwen3-best" "m" none true
        ⟨[], []⟩).fail = ["qwen3-4b-q6", "qwen3-4b-q8"].length ∧
    downloadKeys (download_preset (fun _ => Except.error "net") "" "qwen3-best" "m"
        none true ⟨[], []⟩).state.trace
      = downloadKeys [] ++ ["qwen3-4b-q6", "qwen3-4b-q8"] :=
  claim_C3 (fun _ => Except.error "net") "" "m" none true ⟨[], []⟩
    "qwen3-best" ["qwen3-4b-q6", "qwen3-4b-q8"] (by decide)

/-- Claim C4 (confirmed): for every key not in the catalog, `download_model`
returns failure immediately, leaves the filesystem untouched, performs no
unlink, and makes no fetch call, whatever the directory, token and force
arguments are. -/
theorem claim_C4 (fetch : FetchCall → Except String String)
    (pr key dir : String) (tok : Option String) (force : Bool) (s : DLState)
    (hk : lookupModel key = none) :
    (download_model fetch pr key dir tok force s).1 = false ∧
    (download_model fetch pr key dir tok force s).2.fs = s.fs ∧
    fetchCalls (download_model fetch pr key dir tok force s).2.trace
        = fetchCalls s.trace ∧
    unlinks (download_model fetch pr key dir tok force s).2.trace
        = unlinks s.trace := by
  rw [download_model_unknown fetch pr key dir tok force s hk]
  simp [fetchCalls_append, unlinks_append, fetchCalls, unlinks]

theorem claim_C4_witness :
    (download_model (fun _ => Except.ok "b") "" "no-such-model" "m" (some "tk") true
        ⟨[("f", "c")], []⟩).1 = false ∧
    (download_model (fun _ => Except.ok "b") "" "no-such-model" "m" (some "tk") true
        ⟨[("f", "c")], []⟩).2.fs = [("f", "c")] ∧
    fetchCalls (download_model (fun _ => Except.ok "b") "" "no-such-model" "m"
        (some "tk") true ⟨[("f", "c")], []⟩).2.trace = fetchCalls [] ∧
    unlinks (download_model (fun _ => Except.ok "b") "" "no-such-model" "m"
        (some "tk") true ⟨[("f", "c")], []⟩).2.trace = unlinks [] :=
  claim_C4 (fun _ => Except.ok "b") "" "no-such-model" "m" (some "tk") true
    ⟨[("f", "c")], []⟩ (by decide)

/-- Claim C6 (confirmed): for a catalog key whose target file already
exists, with `force = false` and an interactive response whose
stripped-lowercased form is not `"y"`, `download_model` leaves the
filesystem byte-identical, performs no unlink and makes no fetch call. -/
theorem claim_C6 (fetch : FetchCall → Except String String)
    (pr key dir : String) (tok : Option String) (s : DLState) (info : ModelInfo)
    (hk : lookupModel key = some info)
    (hex : (fsLookup s.fs (pathJoin dir info.filename)).isSome = true)
    (hresp : pyStripLower pr ≠ "y") :
    (download_model fetch pr key dir tok false s).2.fs = s.fs ∧
    unlinks (download_model fetch pr key dir tok false s).2.trace
        = unlinks s.trace ∧
    fetchCalls (download_model fetch pr key dir tok false s).2.trace
        = fetchCalls s.trace := by
  rw [download_model_skip fetch pr key dir tok s info hk hex hresp]
  simp [unlinks_append, fetchCalls_append, unlinks, fetchCalls]

theorem claim_C6_witness :
    (download_model (fun _ => Except.ok "b") " N " "qwen3-4b-q5" "m" none false
        ⟨[("m/Qwen3-4B-Instruct-2507-Q5_K_M.gguf", "old")], []⟩).2.fs
      = [("m/Qwen3-4B-Instruct-2507-Q5_K_M.gguf", "old")] ∧
    unlinks (download_model (fun _ => Except.ok "b") " N " "qwen3-4b-q5" "m" none false
        ⟨[("m/Qwen3-4B-Instruct-2507-Q5_K_M.gguf", "old")], []⟩).2.trace = unlinks [] ∧
    fetchCalls (download_model (fun _ => Except.ok "b") " N " "qwen3-4b-q5" "m" none false
        ⟨[("m/Qwen3-4B-Instruct-2507-Q5_K_M.gguf", "old")], []⟩).2.trace
      = fetchCalls [] :=
  claim_C6 (fun _ => Except.ok "b") " N " "qwen3-4b-q5" "m" none
    ⟨[("m/Qwen3-4B-Instruct-2507-Q5_K_M.gguf", "old")], []⟩
    { repo_id := "unsloth/Qwen3-4B-Instruct-2507-GGUF",
      filename := "Qwen3-4B-Instruct-2507-Q5_K_M.gguf",
      description := "Qwen3 4B Q5_K_M - Good quality",
      tier := "medium", size_gb_tenths := 30 }
    (by decide) (by decide) (by decide)

theorem all_true_iff_not_mem_false (l : List Bool) :
    (∀ b ∈ l, b = true) ↔ false ∉ l := by
  constructor
  · intro h hmem
    exact absurd (h false hmem) (by simp)
  · intro h b hb
    cases b
    · exact absurd hb h
    · rfl

/-- Claim C2 (confirmed): the process exit code is always 0 or 1; it is 0
exactly when the client library is available, the invocation is not the
"no models specified" error, and no individual download of the run failed
(equivalently, every download performed returned success — informational
actions perform no downloads, so they exit 0); hence it is 1 when the
library is missing at startup, when any download fails, or when no model
keys and no relevant flag are given. -/
theorem claim_C2 (hf : Bool) (envT : Option String)
    (fetch : FetchCall → Except String String) (pr : String)
    (args : Args) (s : DLState) :
    ((Script.main hf envT fetch pr args s).exit = 0 ∨
      (Script.main hf envT fetch pr args s).exit = 1) ∧
    ((Script.main hf envT fetch pr args s).exit = 0 ↔
      (hf = true ∧
        (Script.main hf envT fetch pr args s).action ≠ MainAction.noModels ∧
        (Script.main hf envT fetch pr args s).fail = 0)) ∧
    ((Script.main hf envT fetch pr args s).fail = 0 ↔
      ∀ b ∈ (Script.main hf envT fetch pr args s).results, b = true) := by
  cases hf with
  | false => simp [Script.main]
  | true =>
    by_cases h1 : args.list = true
    · simp [Script.main, h1]
    · by_cases h2 : args.presets = true
      · simp [Script.main, h1, h2]
      · by_cases h3 : optStrTruthy args.browse = true
        · simp [Script.main, h1, h2, h3]
        · by_cases h4 : optStrTruthy args.preset = true
          · have hiff := download_preset_fail_eq_zero_iff fetch pr (args.preset.getD "")
              args.dir (if optStrTruthy args.token then args.token else envT) args.force s
            by_cases hF : (download_preset fetch pr (args.preset.getD "") args.dir
                (if optStrTruthy args.token then args.token else envT)
                args.force s).fail = 0
            · simp only [Script.main, h1, h2, h3, h4]
              simp [hF]
              exact (all_true_iff_not_mem_false _).mp (hiff.mp hF)
            · have hnot : ¬ ∀ b ∈ (download_preset fetch pr (args.preset.getD "")
                  args.dir (if optStrTruthy args.token then args.token else envT)
                  args.force s).results, b = true :=
                fun hA => hF (hiff.mpr hA)
              simp [Script.main, h1, h2, h3, h4, hF]
              exact not_not.mp ((not_congr (all_true_iff_not_mem_false _)).mp hnot)
          · by_cases h5 : args.models.isEmpty = true
            · simp [Script.main, h1, h2, h3, h4, h5]
            · have hiff := runDownloads_fail_eq_zero_iff fetch pr args.dir
                (if optStrTruthy args.token then args.token else envT)
                args.force args.models s
              by_cases hF : (runDownloads fetch pr args.dir
                  (if optStrTruthy args.token then args.token else envT)
                  args.force args.models s).fail = 0
              · simp [Script.main, h1, h2, h3, h4, h5, hF]
                exact (all_true_iff_not_mem_false _).mp (hiff.mp hF)
              · have hnot : ¬ ∀ b ∈ (runDownloads fetch pr args.dir
                    (if optStrTruthy args.token then args.token else envT)
                    args.force args.models s).results, b = true :=
                  fun hA => hF (hiff.mpr hA)
                simp [Script.main, h1, h2, h3, h4, h5, hF]
                exact not_not.mp ((not_congr (all_true_iff_not_mem_false _)).mp hnot)

theorem claim_C2_witness :
    ((Script.main true none (fun _ => Except.ok "b") ""
        ⟨["qwen3-4b-q5"], false, false, none, "m", none, false, none⟩
        ⟨[], []⟩).exit = 0 ∨
      (Script.main true none (fun _ => Except.ok "b") ""
        ⟨["qwen3-4b-q5"], false, false, none, "m", none, false, none⟩
        ⟨[], []⟩).exit = 1) ∧
    ((Script.main true none (fun _ => Except.ok "b") ""
        ⟨["qwen3-4b-q5"], false, false, none, "m", none, false, none⟩
        ⟨[], []⟩).exit = 0 ↔
      (true = true ∧
        (Script.main true none (fun _ => Except.ok "b") ""
          ⟨["qwen3-4b-q5"], false, false, none, "m", none, false, none⟩
          ⟨[], []⟩).action ≠ MainAction.noModels ∧
        (Script.main true none (fun _ => Except.ok "b") ""
          ⟨["qwen3-4b-q5"], false, false, none, "m", none, false, none⟩
          ⟨[], []⟩).fail = 0)) ∧
    ((Script.main true none (fun _ => Except.ok "b") ""
        ⟨["qwen3-4b-q5"], false, false, none, "m", none, false, none⟩
        ⟨[], []⟩).fail = 0 ↔
      ∀ b ∈ (Script.main true none (fun _ => Except.ok "b") ""
        ⟨["qwen3-4b-q5"], false, false, none, "m", none, false, none⟩
        ⟨[], []⟩).results, b = true) :=
  claim_C2 true none (fun _ => Except.ok "b") ""
    ⟨["qwen3-4b-q5"], false, false, none, "m", none, false, none⟩ ⟨[], []⟩

/-- Claim C5 (confirmed): with the client library available, `main`
performs exactly the one primary action selected by the priority order
list-models, list-presets, browse, preset-download, explicit-key-download,
else the no-models usage error; and in the no-models case the exit code is
the non-zero 1. -/
theorem claim_C5 (envT : Option String) (fetch : FetchCall → Except String String)
    (pr : String) (args : Args) (s : DLState) :
    (Script.main true envT fetch pr args s).action = selectPrimaryAction args ∧
    ((Script.main true envT fetch pr args s).action = MainAction.noModels →
      (Script.main true envT fetch pr args s).exit = 1) := by
  by_cases h1 : args.list = true <;>
  by_cases h2 : args.presets = true <;>
  by_cases h3 : optStrTruthy args.browse = true <;>
  by_cases h4 : optStrTruthy args.preset = true <;>
  by_cases h5 : args.models.isEmpty = true <;>
    simp [Script.main, selectPrimaryAction, h1, h2, h3, h4, h5]

theorem claim_C5_witness :
    (Script.main true none (fun _ => Except.ok "b") ""
        ⟨[], false, false, none, "./models", none, false, none⟩ ⟨[], []⟩).action
      = selectPrimaryAction ⟨[], false, false, none, "./models", none, false, none⟩ ∧
    ((Script.main true none (fun _ => Except.ok "b") ""
        ⟨[], false, false, none, "./models", none, false, none⟩ ⟨[], []⟩).action
        = MainAction.noModels →
      (Script.main true none (fun _ => Except.ok "b") ""
        ⟨[], false, false, none, "./models", none, false, none⟩ ⟨[], []⟩).exit = 1) :=
  claim_C5 none (fun _ => Except.ok "b") ""
    ⟨[], false, false, none, "./models", none, false, none⟩ ⟨[], []⟩

/-- Claim C7 (confirmed): every key of every preset in the preset table
resolves in the model catalog. -/
theorem claim_C7 : ∀ p ∈ PRESETS, ∀ k ∈ p.2, (lookupModel k).isSome = true := by
  decide

theorem claim_C7_witness :
    ("minimal", ["qwen3-4b-q5"]) ∈ PRESETS ∧
    (lookupModel "qwen3-4b-q5").isSome = true :=
  ⟨by decide,
    claim_C7 ("minimal", ["qwen3-4b-q5"]) (by decide) "qwen3-4b-q5" (by decide)⟩

/-- Claim C8 (confirmed): the catalog maps `"qwen3-4b-q5"` to repository
`"unsloth/Qwen3-4B-Instruct-2507-GGUF"` and filename
`"Qwen3-4B-Instruct-2507-Q5_K_M.gguf"`; `download_model` on that key with
`force = true` invokes the external fetch with exactly that repository id
and filename (and `resume = true`) and returns success when the fetch
returns; and the preset `"minimal"` is exactly `["qwen3-4b-q5"]`, so
downloading it invokes `download_model` exactly once. -/
theorem claim_C8 (fetch : FetchCall → Except String String)
    (pr dir : String) (s : DLState) (content : String)
    (hfetch : fetch ⟨"unsloth/Qwen3-4B-Instruct-2507-GGUF",
        "Qwen3-4B-Instruct-2507-Q5_K_M.gguf", dir, none, true⟩
        = Except.ok content) :
    (lookupModel "qwen3-4b-q5").map (fun i => (i.repo_id, i.filename))
        = some ("unsloth/Qwen3-4B-Instruct-2507-GGUF",
                "Qwen3-4B-Instruct-2507-Q5_K_M.gguf") ∧
    (download_model fetch pr "qwen3-4b-q5" dir none true s).1 = true ∧
    fetchCalls (download_model fetch pr "qwen3-4b-q5" dir none true s).2.trace
        = fetchCalls s.trace
          ++ [⟨"unsloth/Qwen3-4B-Instruct-2507-GGUF",
               "Qwen3-4B-Instruct-2507-Q5_K_M.gguf", dir, none, true⟩] ∧
    lookupPreset "minimal" = some ["qwen3-4b-q5"] ∧
    downloadKeys (download_preset fetch pr "minimal" dir none true s).state.trace
        = downloadKeys s.trace ++ ["qwen3-4b-q5"] := by
  have hk : lookupModel "qwen3-4b-q5" = some
      { repo_id := "unsloth/Qwen3-4B-Instruct-2507-GGUF",
        filename := "Qwen3-4B-Instruct-2507-Q5_K_M.gguf",
        description := "Qwen3 4B Q5_K_M - Good quality",
        tier := "medium", size_gb_tenths := 30 } := by decide
  have hmin : lookupPreset "minimal" = some ["qwen3-4b-q5"] := by decide
  have h1 := download_model_force fetch pr "qwen3-4b-q5" dir none s _ hk
  have h2 := doFetch_ok fetch
      { repo_id := "unsloth/Qwen3-4B-Instruct-2507-GGUF",
        filename := "Qwen3-4B-Instruct-2507-Q5_K_M.gguf",
        description := "Qwen3 4B Q5_K_M - Good quality",
        tier := "medium", size_gb_tenths := 30 }
      dir none { s with trace := s.trace ++ [Event.download "qwen3-4b-q5"] }
      content hfetch
  rw [h2] at h1
  refine ⟨by decide, ?_, ?_, hmin, ?_⟩
  · rw [h1]
  · rw [h1]
    simp [fetchCalls_append, fetchCalls]
  · simp only [download_preset, hmin]
    simpa using runDownloads_downloadKeys fetch pr dir none true ["qwen3-4b-q5"] s

theorem claim_C8_witness :
    (lookupModel "qwen3-4b-q5").map (fun i => (i.repo_id, i.filename))
        = some ("unsloth/Qwen3-4B-Instruct-2507-GGUF",
                "Qwen3-4B-Instruct-2507-Q5_K_M.gguf") ∧
    (download_model (fun _ => Except.ok "b") "" "qwen3-4b-q5" "m" none true
        ⟨[], []⟩).1 = true ∧
    fetchCalls (download_model (fun _ => Except.ok "b") "" "qwen3-4b-q5" "m" none true
        ⟨[], []⟩).2.trace
        = fetchCalls []
          ++ [⟨"unsloth/Qwen3-4B-Instruct-2507-GGUF",
               "Qwen3-4B-Instruct-2507-Q5_K_M.gguf", "m", none, true⟩] ∧
    lookupPreset "minimal" = some ["qwen3-4b-q5"] ∧
    downloadKeys (download_preset (fun _ => Except.ok "b") "" "minimal" "m" none true
        ⟨[], []⟩).state.trace
        = downloadKeys [] ++ ["qwen3-4b-q5"] :=
  claim_C8 (fun _ => Except.ok "b") "" "m" ⟨[], []⟩ "b" rfl

/-- Claim C9 (confirmed, implicit behavior): when every requested model key
resolves and its target file already exists, `force` is false and the
interactive response strips-lowercases to something other than `"y"`, every
`download_model` call returns `True`; the skipped models are all counted as
successes, the run reports them as successfully downloaded and exits with
code 0, and the filesystem is unchanged. -/
theorem claim_C9 (envT : Option String) (fetch : FetchCall → Except String String)
    (pr : String) (args : Args) (s : DLState)
    (hl : args.list = false) (hp : args.presets = false)
    (hb : optStrTruthy args.browse = false)
    (hprn : optStrTruthy args.preset = false)
    (hforce : args.force = false)
    (hne : args.models ≠ [])
    (hresp : pyStripLower pr ≠ "y")
    (hall : ∀ k ∈ args.models, ∃ info, lookupModel k = some info ∧
        (fsLookup s.fs (pathJoin args.dir info.filename)).isSome = true) :
    (Script.main true envT fetch pr args s).exit = 0 ∧
    (Script.main true envT fetch pr args s).succ = args.models.length ∧
    (Script.main true envT fetch pr args s).fail = 0 ∧
    (Script.main true envT fetch pr args s).results
        = List.replicate args.models.length true ∧
    (Script.main true envT fetch pr args s).state.fs = s.fs := by
  have him : args.models.isEmpty = false := by
    cases hm : args.models with
    | nil => exact absurd hm hne
    | cons a l => rfl
  have hr := runDownloads_skip fetch pr args.dir
    (if optStrTruthy args.token then args.token else envT) args.models s hresp hall
  simp [Script.main, hl, hp, hb, hprn, him, hforce,
    hr.1, hr.2.1, hr.2.2.1, hr.2.2.2]

theorem claim_C9_witness :
    (Script.main true none (fun _ => Except.ok "b") " N "
        ⟨["qwen3-4b-q5"], false, false, none, "m", none, false, none⟩
        ⟨[("m/Qwen3-4B-Instruct-2507-Q5_K_M.gguf", "old")], []⟩).exit = 0 ∧
    (Script.main true none (fun _ => Except.ok "b") " N "
        ⟨["qwen3-4b-q5"], false, false, none, "m", none, false, none⟩
        ⟨[("m/Qwen3-4B-Instruct-2507-Q5_K_M.gguf", "old")], []⟩).succ
      = (["qwen3-4b-q5"] : List String).length ∧
    (Script.main true none (fun _ => Except.ok "b") " N "
        ⟨["qwen3-4b-q5"], false, false, none, "m", none, false, none⟩
        ⟨[("m/Qwen3-4B-Instruct-2507-Q5_K_M.gguf", "old")], []⟩).fail = 0 ∧
    (Script.main true none (fun _ => Except.ok "b") " N "
        ⟨["qwen3-4b-q5"], false, false, none, "m", none, false, none⟩
        ⟨[("m/Qwen3-4B-Instruct-2507-Q5_K_M.gguf", "old")], []⟩).results
      = List.replicate (["qwen3-4b-q5"] : List String).length true ∧
    (Script.main true none (fun _ => Except.ok "b") " N "
        ⟨["qwen3-4b-q5"], false, false, none, "m", none, false, none⟩
        ⟨[("m/Qwen3-4B-Instruct-2507-Q5_K_M.gguf", "old")], []⟩).state.fs
      = [("m/Qwen3-4B-Instruct-2507-Q5_K_M.gguf", "old")] :=
  claim_C9 none (fun _ => Except.ok "b") " N "
    ⟨["qwen3-4b-q5"], false, false, none, "m", none, false, none⟩
    ⟨[("m/Qwen3-4B-Instruct-2507-Q5_K_M.gguf", "old")], []⟩
    rfl rfl rfl rfl rfl (by decide) (by decide)
    (fun k hk => by
      have hkey : k = "qwen3-4b-q5" := by simpa using hk
      subst hkey
      exact ⟨{ repo_id := "unsloth/Qwen3-4B-Instruct-2507-GGUF",
               filename := "Qwen3-4B-Instruct-2507-Q5_K_M.gguf",
               description := "Qwen3 4B Q5_K_M - Good quality",
               tier := "medium", size_gb_tenths := 30 },
             by decide, by decide⟩)

/-- Claim C10 (confirmed, implicit behavior): for a preset name absent from
the preset table, `download_preset` performs no download and returns the
pair (0, 0); since the failure count is zero, `main` then exits with code 0
even though the requested preset did not exist, with nothing downloaded and
the state untouched. -/
theorem claim_C10 (envT : Option String) (fetch : FetchCall → Except String String)
    (pr : String) (args : Args) (s : DLState) (name : String)
    (hl : args.list = false) (hp : args.presets = false)
    (hb : optStrTruthy args.browse = false)
    (hname : args.preset = some name) (hne : name ≠ "")
    (hunknown : lookupPreset name = none) :
    (Script.main true envT fetch pr args s).exit = 0 ∧
    (Script.main true envT fetch pr args s).succ = 0 ∧
    (Script.main true envT fetch pr args s).fail = 0 ∧
    (Script.main true envT fetch pr args s).results = [] ∧
    (Script.main true envT fetch pr args s).state = s := by
  have hts : optStrTruthy (some name) = true := by
    simp [optStrTruthy, hne]
  simp [Script.main, hl, hp, hb, hname, hts, download_preset, hunknown]

theorem claim_C10_witness :
    (Script.main true none (fun _ => Except.ok "b") ""
        ⟨[], false, false, some "bogus", "m", none, false, none⟩ ⟨[], []⟩).exit = 0 ∧
    (Script.main true none (fun _ => Except.ok "b") ""
        ⟨[], false, false, some "bogus", "m", none, false, none⟩ ⟨[], []⟩).succ = 0 ∧
    (Script.main true none (fun _ => Except.ok "b") ""
        ⟨[], false, false, some "bogus", "m", none, false, none⟩ ⟨[], []⟩).fail = 0 ∧
    (Script.main true none (fun _ => Except.ok "b") ""
        ⟨[], false, false, some "bogus", "m", none, false, none⟩ ⟨[], []⟩).results
      = [] ∧
    (Script.main true none (fun _ => Except.ok "b") ""
        ⟨[], false, false, some "bogus", "m", none, false, none⟩ ⟨[], []⟩).state
      = ⟨[], []⟩ :=
  claim_C10 none (fun _ => Except.ok "b") ""
    ⟨[], false, false, some "bogus", "m", none, false, none⟩ ⟨[], []⟩ "bogus"
    rfl rfl rfl rfl (by decide) (by decide)
